import Mathlib

/-!
Shallow embedding of `Sources/CSphereAnimationTypes/include/ShaderTypes.h`.

The header declares fixed-layout structs shared between the host (C / Swift,
via the Apple `simd` module) and the device (Metal Shading Language).  Scalar
fields hold 32-bit values; we model each 32-bit slot by its bit pattern
(`Word32`), since the structs only store and copy values, never compute with
them.  The layout of each struct (field sizes, alignments, offsets, total
size) is computed from the per-type size/alignment tables of the two ABIs,
and host-side writes / device-side reads are modelled as encoding to and
decoding from a flat list of 32-bit words.
-/

/-- Bit pattern of one 32-bit storage slot (a `float` or an `int`). -/
abbrev Word32 := Fin 4294967296

instance : NeZero 4294967296 := ⟨by norm_num⟩

/-- Signed two-complement reading of a 32-bit word, as a C `int` has. -/
def Word32.toInt32 (w : Word32) : Int :=
  if w.val < 2147483648 then (w.val : Int) else (w.val : Int) - 4294967296

/-- Transcribed from `simd_float2`: two 32-bit float components. -/
structure simd_float2 where
  x : Word32
  y : Word32
deriving DecidableEq

/-- Transcribed from `simd_float3`: three 32-bit float components. -/
structure simd_float3 where
  x : Word32
  y : Word32
  z : Word32
deriving DecidableEq

/-- Transcribed from `simd_float4`: four 32-bit float components. -/
structure simd_float4 where
  x : Word32
  y : Word32
  z : Word32
  w : Word32
deriving DecidableEq

/-- Transcribed from `simd_float4x4`: four columns of `simd_float4`. -/
structure simd_float4x4 where
  col0 : simd_float4
  col1 : simd_float4
  col2 : simd_float4
  col3 : simd_float4
deriving DecidableEq

/-- Transcribed from ShaderTypes.h lines 9-12: the `VertexIn` struct. -/
structure VertexIn where
  position : simd_float3
  normal : simd_float3
deriving DecidableEq

/-- Transcribed from ShaderTypes.h lines 15-21: the `VertexUniforms` struct. -/
structure VertexUniforms where
  modelMatrix : simd_float4x4
  viewProjectionMatrix : simd_float4x4
  cameraPosition : simd_float3
  spherePosition : simd_float2
  sphereScale : Word32
deriving DecidableEq

/-- Transcribed from ShaderTypes.h lines 24-31: the `FragmentUniforms`
struct.  The field `colors` is the C array `simd_float3 colors[10]`,
modelled as a total function on the ten valid indices. -/
structure FragmentUniforms where
  colors : Fin 10 → simd_float3
  colorCount : Word32
  time : Word32
  lightPosition : simd_float3
  colorCycleDuration : Word32
  glowIntensity : Word32

/-! ## Field descriptions

Semantic field types and named field lists, one list transcribed from the
source declaration of each struct, and one list following the spec wording
of the corresponding data-model row, for comparison. -/

/-- Semantic type of a struct field as it appears in the declarations. -/
inductive SemType where
  | float : SemType
  | int32 : SemType
  | vec2 : SemType
  | vec3 : SemType
  | vec4 : SemType
  | mat4x4 : SemType
  | arr : Nat → SemType → SemType
deriving DecidableEq

/-- One declared struct field: its name, its semantic type, and whether it
carries the rasterization-position designation (`[[position]]`). -/
structure FieldDesc where
  name : String
  type : SemType
  rasterPos : Bool
deriving DecidableEq

/-- One struct declaration of the header: its name and its fields. -/
structure StructDecl where
  name : String
  fields : List FieldDesc
deriving DecidableEq

/-- Transcribed from ShaderTypes.h lines 9-12, in declaration order. -/
def VertexIn.srcFields : List FieldDesc :=
  [⟨"position", .vec3, false⟩, ⟨"normal", .vec3, false⟩]

/-- Transcribed from ShaderTypes.h lines 15-21, in declaration order. -/
def VertexUniforms.srcFields : List FieldDesc :=
  [⟨"modelMatrix", .mat4x4, false⟩, ⟨"viewProjectionMatrix", .mat4x4, false⟩,
   ⟨"cameraPosition", .vec3, false⟩, ⟨"spherePosition", .vec2, false⟩,
   ⟨"sphereScale", .float, false⟩]

/-- Transcribed from ShaderTypes.h lines 24-31, in declaration order. -/
def FragmentUniforms.srcFields : List FieldDesc :=
  [⟨"colors", .arr 10 .vec3, false⟩, ⟨"colorCount", .int32, false⟩,
   ⟨"time", .float, false⟩, ⟨"lightPosition", .vec3, false⟩,
   ⟨"colorCycleDuration", .float, false⟩, ⟨"glowIntensity", .float, false⟩]

/-- Transcribed from ShaderTypes.h lines 38-43, in declaration order; the
first field carries the `[[position]]` attribute. -/
def VertexOut.srcFields : List FieldDesc :=
  [⟨"position", .vec4, true⟩, ⟨"worldPosition", .vec3, false⟩,
   ⟨"worldNormal", .vec3, false⟩, ⟨"viewDirection", .vec3, false⟩]

/-- Follows the spec data-model row for VertexAttributes, word for word. -/
def VertexAttributes.specFields : List FieldDesc :=
  [⟨"position", .vec3, false⟩, ⟨"normal", .vec3, false⟩]

/-- Follows the spec data-model row for DrawUniforms, word for word. -/
def DrawUniforms.specFields : List FieldDesc :=
  [⟨"modelMatrix", .mat4x4, false⟩, ⟨"viewProjectionMatrix", .mat4x4, false⟩,
   ⟨"cameraPosition", .vec3, false⟩, ⟨"spherePosition", .vec2, false⟩,
   ⟨"sphereScale", .float, false⟩]

/-- Follows the spec data-model row for FrameUniforms, word for word:
colors is a fixed-capacity sequence of up to 10 three-component vectors,
then colorCount, time, lightPosition, colorCycleDuration, glowIntensity. -/
def FrameUniforms.specFields : List FieldDesc :=
  [⟨"colors", .arr 10 .vec3, false⟩, ⟨"colorCount", .int32, false⟩,
   ⟨"time", .float, false⟩, ⟨"lightPosition", .vec3, false⟩,
   ⟨"colorCycleDuration", .float, false⟩, ⟨"glowIntensity", .float, false⟩]

/-- Follows the spec data-model row for InterpolatedVertex, word for word:
a clip position with the rasterization-position designation, then three
3-component vectors. -/
def InterpolatedVertex.specFields : List FieldDesc :=
  [⟨"clipPosition", .vec4, true⟩, ⟨"worldPosition", .vec3, false⟩,
   ⟨"worldNormal", .vec3, false⟩, ⟨"viewDirection", .vec3, false⟩]

/-- The structs a translation unit including ShaderTypes.h sees: the three
shared structs always, and `VertexOut` only when `__METAL_VERSION__` is
defined (lines 35-46 of the header), i.e. only in device compilation. -/
def shaderTypesDecls (metalVersionDefined : Bool) : List StructDecl :=
  [⟨"VertexIn", VertexIn.srcFields⟩,
   ⟨"VertexUniforms", VertexUniforms.srcFields⟩,
   ⟨"FragmentUniforms", FragmentUniforms.srcFields⟩] ++
  (if metalVersionDefined then [⟨"VertexOut", VertexOut.srcFields⟩] else [])

/-- The `VertexOut` declaration of the header. -/
def vertexOutDecl : StructDecl := ⟨"VertexOut", VertexOut.srcFields⟩

/-! ## Layout

Size and alignment of each field type under the two ABIs, and the derived
struct layouts. -/

/-- Storage size and alignment, in bytes, of one C type. -/
structure CType where
  size : Nat
  align : Nat
deriving DecidableEq

/-- Host-side (C / Swift) storage of each field type, per the Apple `simd`
ABI: `simd_float3` occupies 16 bytes (three floats plus one 4-byte padding
lane) with 16-byte alignment; `simd_float2` 8 bytes; `simd_float4` 16;
`simd_float4x4` 64; `float` and `int` 4 bytes each. -/
def SemType.hostCType : SemType → CType
  | .float => ⟨4, 4⟩
  | .int32 => ⟨4, 4⟩
  | .vec2 => ⟨8, 8⟩
  | .vec3 => ⟨16, 16⟩
  | .vec4 => ⟨16, 16⟩
  | .mat4x4 => ⟨64, 16⟩
  | .arr n t => ⟨n * (hostCType t).size, (hostCType t).align⟩

/-- Device-side (Metal Shading Language) storage of each field type, per
the MSL size and alignment table for the non-packed types named in the
header: `float3` occupies 16 bytes with 16-byte alignment, `float2` 8,
`float4` 16, `float4x4` 64, `float` and `int` 4 bytes each. -/
def SemType.deviceCType : SemType → CType
  | .float => ⟨4, 4⟩
  | .int32 => ⟨4, 4⟩
  | .vec2 => ⟨8, 8⟩
  | .vec3 => ⟨16, 16⟩
  | .vec4 => ⟨16, 16⟩
  | .mat4x4 => ⟨64, 16⟩
  | .arr n t => ⟨n * (deviceCType t).size, (deviceCType t).align⟩

/-- Round `n` up to the next multiple of `a`. -/
def alignUp (n a : Nat) : Nat :=
  if a = 0 then n else ((n + a - 1) / a) * a

/-- Byte offset of each field of a struct whose fields have the given
types, laid out in order starting at `off`, each field aligned to its
alignment. -/
def offsetsFrom (off : Nat) : List CType → List Nat
  | [] => []
  | t :: ts => alignUp off t.align :: offsetsFrom (alignUp off t.align + t.size) ts

/-- Byte offset one past the last field. -/
def structEnd (off : Nat) : List CType → Nat
  | [] => off
  | t :: ts => structEnd (alignUp off t.align + t.size) ts

/-- Alignment of the whole struct: the maximum field alignment. -/
def structAlign (ts : List CType) : Nat :=
  ts.foldr (fun t a => max t.align a) 1

/-- Total byte size of the struct: the end offset rounded up to the struct
alignment (trailing padding). -/
def structSize (ts : List CType) : Nat :=
  alignUp (structEnd 0 ts) (structAlign ts)

/-- Capacity of an array field type; 0 for non-array types. -/
def SemType.arrayCapacity : SemType → Nat
  | .arr n _ => n
  | _ => 0

/-- Semantic type of the named field in a field list. -/
def fieldType (fs : List FieldDesc) (nm : String) : SemType :=
  match fs.find? (fun f => f.name == nm) with
  | some f => f.type
  | none => .float

def VertexIn.hostTypes : List CType :=
  VertexIn.srcFields.map (fun f => f.type.hostCType)

def VertexIn.deviceTypes : List CType :=
  VertexIn.srcFields.map (fun f => f.type.deviceCType)

def VertexIn.hostOffsets : List Nat := offsetsFrom 0 VertexIn.hostTypes

def VertexIn.deviceOffsets : List Nat := offsetsFrom 0 VertexIn.deviceTypes

def VertexIn.sizeBytes : Nat := structSize VertexIn.hostTypes

def VertexUniforms.hostTypes : List CType :=
  VertexUniforms.srcFields.map (fun f => f.type.hostCType)

def VertexUniforms.deviceTypes : List CType :=
  VertexUniforms.srcFields.map (fun f => f.type.deviceCType)

def VertexUniforms.hostOffsets : List Nat := offsetsFrom 0 VertexUniforms.hostTypes

def VertexUniforms.deviceOffsets : List Nat := offsetsFrom 0 VertexUniforms.deviceTypes

def VertexUniforms.sizeBytes : Nat := structSize VertexUniforms.hostTypes

def FragmentUniforms.hostTypes : List CType :=
  FragmentUniforms.srcFields.map (fun f => f.type.hostCType)

def FragmentUniforms.deviceTypes : List CType :=
  FragmentUniforms.srcFields.map (fun f => f.type.deviceCType)

def FragmentUniforms.hostOffsets : List Nat := offsetsFrom 0 FragmentUniforms.hostTypes

def FragmentUniforms.deviceOffsets : List Nat := offsetsFrom 0 FragmentUniforms.deviceTypes

def FragmentUniforms.sizeBytes : Nat := structSize FragmentUniforms.hostTypes

/-- Capacity of the `colors` array as declared in the source struct. -/
def FragmentUniforms.colorsCapacity : Nat :=
  (fieldType FragmentUniforms.srcFields "colors").arrayCapacity

/-! ## Host write and device read

A host write serializes a struct into a flat buffer of 32-bit words, each
field at its host-ABI offset, with padding words written as zero (their
contents are unspecified in C; the reader never looks at them).  A device
read picks each field back out of the buffer at its device-ABI offset. -/

/-- `n` zeroed padding words. -/
def padWords (n : Nat) : List Word32 := List.replicate n 0

/-- Lay the given field payloads (each one `t.size / 4` words) out in
order from byte offset `off`, inserting alignment padding. -/
def placeFields (off : Nat) : List (CType × List Word32) → List Word32
  | [] => []
  | (t, p) :: rest =>
      padWords ((alignUp off t.align - off) / 4) ++ p ++
        placeFields (alignUp off t.align + t.size) rest

/-- Serialize a struct with field types `ts` and field payloads `ps` (each
payload `t.size / 4` words): fields at their offsets, then trailing
padding up to the struct size. -/
def encodeStruct (ts : List CType) (ps : List (List Word32)) : List Word32 :=
  placeFields 0 (ts.zip ps) ++ padWords ((structSize ts - structEnd 0 ts) / 4)

/-- The word stored at word index `i` of the buffer (byte offset `4 * i`). -/
def wordAt (ws : List Word32) (i : Nat) : Word32 := ws.getD i 0

/-- Payload of a `simd_float2`: two components. -/
def encodeF2 (v : simd_float2) : List Word32 := [v.x, v.y]

/-- Payload of a `simd_float3`: three components and the unused fourth
lane of its 16-byte slot. -/
def encodeF3 (v : simd_float3) : List Word32 := [v.x, v.y, v.z, 0]

/-- Payload of a `simd_float4`: four components. -/
def encodeF4 (v : simd_float4) : List Word32 := [v.x, v.y, v.z, v.w]

/-- Payload of a `simd_float4x4`: the four columns in order. -/
def encodeM4 (m : simd_float4x4) : List Word32 :=
  encodeF4 m.col0 ++ encodeF4 m.col1 ++ encodeF4 m.col2 ++ encodeF4 m.col3

/-- Payload of the `colors[10]` array: the ten elements in order. -/
def encodeColors (c : Fin 10 → simd_float3) : List Word32 :=
  encodeF3 (c 0) ++ encodeF3 (c 1) ++ encodeF3 (c 2) ++ encodeF3 (c 3) ++
  encodeF3 (c 4) ++ encodeF3 (c 5) ++ encodeF3 (c 6) ++ encodeF3 (c 7) ++
  encodeF3 (c 8) ++ encodeF3 (c 9)

/-- Read a `simd_float2` starting at word index `w` (byte offset `4 * w`). -/
def decodeF2 (ws : List Word32) (w : Nat) : simd_float2 :=
  ⟨wordAt ws w, wordAt ws (w + 1)⟩

/-- Read a `simd_float3` starting at word index `w` (byte offset `4 * w`);
the fourth lane of the 16-byte slot is padding and is not read. -/
def decodeF3 (ws : List Word32) (w : Nat) : simd_float3 :=
  ⟨wordAt ws w, wordAt ws (w + 1), wordAt ws (w + 2)⟩

/-- Read a `simd_float4` starting at word index `w` (byte offset `4 * w`). -/
def decodeF4 (ws : List Word32) (w : Nat) : simd_float4 :=
  ⟨wordAt ws w, wordAt ws (w + 1), wordAt ws (w + 2), wordAt ws (w + 3)⟩

/-- Read a `simd_float4x4` starting at word index `w`: four columns of
four words each. -/
def decodeM4 (ws : List Word32) (w : Nat) : simd_float4x4 :=
  ⟨decodeF4 ws w, decodeF4 ws (w + 4), decodeF4 ws (w + 8),
   decodeF4 ws (w + 12)⟩

/-- Entry `k` of an offset table. -/
def offAt (l : List Nat) (k : Nat) : Nat := l.getD k 0

/-- Host write of a `VertexIn` value, word by word: position at byte 0
(three components and the unused fourth lane), normal at byte 16.  The
lemma `vertexIn_encode_eq_layout` proves this placement equal to the
generic layout of the host field types. -/
def VertexIn.encode (v : VertexIn) : List Word32 :=
  [v.position.x, v.position.y, v.position.z, 0,
   v.normal.x, v.normal.y, v.normal.z, 0]

/-- Device read of a `VertexIn` value, each field at its device byte
offset divided by the 4-byte word size. -/
def VertexIn.decode (ws : List Word32) : VertexIn :=
  ⟨decodeF3 ws (offAt VertexIn.deviceOffsets 0 / 4),
   decodeF3 ws (offAt VertexIn.deviceOffsets 1 / 4)⟩

/-- Host write of a `VertexUniforms` value, word by word: modelMatrix
columns at byte 0, viewProjectionMatrix columns at byte 64,
cameraPosition at byte 128 (fourth lane unused), spherePosition at byte
144, sphereScale at byte 152, then one trailing padding word up to the
160-byte struct size.  The lemma `vertexUniforms_encode_eq_layout`
proves this placement equal to the generic layout of the host field
types. -/
def VertexUniforms.encode (u : VertexUniforms) : List Word32 :=
  [u.modelMatrix.col0.x, u.modelMatrix.col0.y, u.modelMatrix.col0.z, u.modelMatrix.col0.w,
   u.modelMatrix.col1.x, u.modelMatrix.col1.y, u.modelMatrix.col1.z, u.modelMatrix.col1.w,
   u.modelMatrix.col2.x, u.modelMatrix.col2.y, u.modelMatrix.col2.z, u.modelMatrix.col2.w,
   u.modelMatrix.col3.x, u.modelMatrix.col3.y, u.modelMatrix.col3.z, u.modelMatrix.col3.w,
   u.viewProjectionMatrix.col0.x, u.viewProjectionMatrix.col0.y, u.viewProjectionMatrix.col0.z, u.viewProjectionMatrix.col0.w,
   u.viewProjectionMatrix.col1.x, u.viewProjectionMatrix.col1.y, u.viewProjectionMatrix.col1.z, u.viewProjectionMatrix.col1.w,
   u.viewProjectionMatrix.col2.x, u.viewProjectionMatrix.col2.y, u.viewProjectionMatrix.col2.z, u.viewProjectionMatrix.col2.w,
   u.viewProjectionMatrix.col3.x, u.viewProjectionMatrix.col3.y, u.viewProjectionMatrix.col3.z, u.viewProjectionMatrix.col3.w,
   u.cameraPosition.x, u.cameraPosition.y, u.cameraPosition.z, 0,
   u.spherePosition.x, u.spherePosition.y,
   u.sphereScale, 0]

/-- Device read of a `VertexUniforms` value, each field at its device
byte offset divided by the 4-byte word size. -/
def VertexUniforms.decode (ws : List Word32) : VertexUniforms :=
  ⟨decodeM4 ws (offAt VertexUniforms.deviceOffsets 0 / 4),
   decodeM4 ws (offAt VertexUniforms.deviceOffsets 1 / 4),
   decodeF3 ws (offAt VertexUniforms.deviceOffsets 2 / 4),
   decodeF2 ws (offAt VertexUniforms.deviceOffsets 3 / 4),
   wordAt ws (offAt VertexUniforms.deviceOffsets 4 / 4)⟩

/-- Host write of a `FragmentUniforms` value, word by word: the ten
colors array elements at byte 0 (each three components and the unused
fourth lane of its 16-byte slot), colorCount at byte 160, time at byte
164, two padding words before the 16-byte-aligned lightPosition at byte
176, colorCycleDuration at byte 192, glowIntensity at byte 196, then two
trailing padding words up to the 208-byte struct size.  The lemma
`fragmentUniforms_encode_eq_layout` proves this placement equal to the
generic layout of the host field types. -/
def FragmentUniforms.encode (u : FragmentUniforms) : List Word32 :=
  [(u.colors 0).x, (u.colors 0).y, (u.colors 0).z, 0,
   (u.colors 1).x, (u.colors 1).y, (u.colors 1).z, 0,
   (u.colors 2).x, (u.colors 2).y, (u.colors 2).z, 0,
   (u.colors 3).x, (u.colors 3).y, (u.colors 3).z, 0,
   (u.colors 4).x, (u.colors 4).y, (u.colors 4).z, 0,
   (u.colors 5).x, (u.colors 5).y, (u.colors 5).z, 0,
   (u.colors 6).x, (u.colors 6).y, (u.colors 6).z, 0,
   (u.colors 7).x, (u.colors 7).y, (u.colors 7).z, 0,
   (u.colors 8).x, (u.colors 8).y, (u.colors 8).z, 0,
   (u.colors 9).x, (u.colors 9).y, (u.colors 9).z, 0,
   u.colorCount, u.time, 0, 0,
   u.lightPosition.x, u.lightPosition.y, u.lightPosition.z, 0,
   u.colorCycleDuration, u.glowIntensity, 0, 0]

/-- Device read of a `FragmentUniforms` value, each field at its device
byte offset divided by the 4-byte word size; array element `i` sits 16
bytes, i.e. 4 words, per index past the array start. -/
def FragmentUniforms.decode (ws : List Word32) : FragmentUniforms :=
  ⟨fun i => decodeF3 ws (offAt FragmentUniforms.deviceOffsets 0 / 4 + 4 * i.val),
   wordAt ws (offAt FragmentUniforms.deviceOffsets 1 / 4),
   wordAt ws (offAt FragmentUniforms.deviceOffsets 2 / 4),
   decodeF3 ws (offAt FragmentUniforms.deviceOffsets 3 / 4),
   wordAt ws (offAt FragmentUniforms.deviceOffsets 4 / 4),
   wordAt ws (offAt FragmentUniforms.deviceOffsets 5 / 4)⟩

/-- Modelled from the spec: the header declares no validity predicate and
the host construction code is not part of the given source; the spec
states the invariant of a valid FrameUniforms instance as
0 ≤ colorCount ≤ 10. -/
def FragmentUniforms.Valid (u : FragmentUniforms) : Prop :=
  0 ≤ Word32.toInt32 u.colorCount ∧ Word32.toInt32 u.colorCount ≤ 10

/-- Modelled from the spec: widths the spec assigns to each field type,
reading "three 32-bit floats per 3-vector, four 32-bit floats per
4-vector, sixteen 32-bit floats per 4x4 matrix, 32-bit integers for
counts" as occupied bytes. -/
def SemType.claimedWidthBytes : SemType → Nat
  | .float => 4
  | .int32 => 4
  | .vec2 => 8
  | .vec3 => 12
  | .vec4 => 16
  | .mat4x4 => 64
  | .arr n t => n * claimedWidthBytes t

/-- The all-zero 3-vector, used to build concrete struct values. -/
def zero3 : simd_float3 := ⟨0, 0, 0⟩

/-- A concrete `FragmentUniforms` value with the given stored colorCount
word and every other field zeroed. -/
def fragWith (cc : Word32) : FragmentUniforms :=
  ⟨fun _ => zero3, cc, 0, zero3, 0, 0⟩

/-- The 32-bit pattern whose signed reading is -1. -/
def wordNegOne : Word32 := ⟨4294967295, by norm_num⟩

/-- Boolean check that a list of offsets is strictly increasing. -/
def strictlyIncreasing : List Nat → Bool
  | [] => true
  | [_] => true
  | a :: b :: rest => Nat.blt a b && strictlyIncreasing (b :: rest)

/-! ## Theorems -/

/-- The literal word list written for a `VertexIn` value coincides with
the generic layout of its host field types and payloads. -/
theorem vertexIn_encode_eq_layout (v : VertexIn) :
    v.encode = encodeStruct VertexIn.hostTypes
      [encodeF3 v.position, encodeF3 v.normal] := rfl

set_option maxHeartbeats 1600000 in
/-- The literal word list written for a `VertexUniforms` value coincides
with the generic layout of its host field types and payloads. -/
theorem vertexUniforms_encode_eq_layout (u : VertexUniforms) :
    u.encode = encodeStruct VertexUniforms.hostTypes
      [encodeM4 u.modelMatrix, encodeM4 u.viewProjectionMatrix,
       encodeF3 u.cameraPosition, encodeF2 u.spherePosition,
       [u.sphereScale]] := rfl

set_option maxHeartbeats 1600000 in
/-- The literal word list written for a `FragmentUniforms` value
coincides with the generic layout of its host field types and payloads. -/
theorem fragmentUniforms_encode_eq_layout (u : FragmentUniforms) :
    u.encode = encodeStruct FragmentUniforms.hostTypes
      [encodeColors u.colors, [u.colorCount], [u.time],
       encodeF3 u.lightPosition, [u.colorCycleDuration],
       [u.glowIntensity]] := rfl


/-- Claim C1: every valid FragmentUniforms value (spec name FrameUniforms)
has 0 ≤ colorCount ≤ 10, where 10 is the declared capacity of the
`colors` array, so colorCount never exceeds that capacity. -/
theorem fragmentUniforms_valid_colorCount_within_capacity
    (u : FragmentUniforms) (h : u.Valid) :
    0 ≤ Word32.toInt32 u.colorCount ∧
      Word32.toInt32 u.colorCount ≤ (FragmentUniforms.colorsCapacity : Int) := by
  refine ⟨h.1, ?_⟩
  rw [show FragmentUniforms.colorsCapacity = 10 from rfl]
  exact h.2

/-- Witness for C1 at the concrete instance with colorCount 3. -/
theorem fragmentUniforms_valid_colorCount_within_capacity_witness :
    0 ≤ Word32.toInt32 (fragWith 3).colorCount ∧
      Word32.toInt32 (fragWith 3).colorCount ≤ (FragmentUniforms.colorsCapacity : Int) :=
  fragmentUniforms_valid_colorCount_within_capacity (fragWith 3) ⟨by decide, by decide⟩

/-- Counterexample to C2 as stated: a 3-component vector field does not
occupy exactly three 32-bit floats (12 bytes).  Under both the host simd
ABI and the device MSL ABI it occupies 16 bytes, so VertexIn occupies 32
bytes rather than the 24 the claimed widths give, and the claimed widths
would place colorCount of FragmentUniforms at byte 120 instead of its
actual offset 160. -/
theorem sharedStructs_threeFloat_width_counterexample :
    SemType.claimedWidthBytes .vec3 = 12 ∧
    (SemType.hostCType .vec3).size = 16 ∧
    (SemType.deviceCType .vec3).size = 16 ∧
    (SemType.hostCType .vec3).size ≠ SemType.claimedWidthBytes .vec3 ∧
    (VertexIn.srcFields.map (fun f => SemType.claimedWidthBytes f.type)).sum = 24 ∧
    VertexIn.sizeBytes = 32 ∧
    (VertexIn.srcFields.map (fun f => SemType.claimedWidthBytes f.type)).sum ≠
      VertexIn.sizeBytes ∧
    ((FragmentUniforms.srcFields.take 1).map
      (fun f => SemType.claimedWidthBytes f.type)).sum = 120 ∧
    offAt FragmentUniforms.hostOffsets 1 = 160 := by decide

/-- Claim C2 amended: a 3-component vector field occupies 16 bytes (three
32-bit float components and one 4-byte padding lane), a 2-component
vector 8 bytes, a 4-component vector 16 bytes, a 4x4 matrix 64 bytes and
a count field 4 bytes, identically on the host and device sides, and with
these widths the byte sizes and field offsets of the three shared structs
are identical between the host-side and device-side declarations. -/
theorem sharedStructs_field_widths_and_layout_agree :
    (SemType.hostCType .vec3).size = 16 ∧ (SemType.deviceCType .vec3).size = 16 ∧
    (SemType.hostCType .vec2).size = 8 ∧ (SemType.deviceCType .vec2).size = 8 ∧
    (SemType.hostCType .vec4).size = 16 ∧ (SemType.deviceCType .vec4).size = 16 ∧
    (SemType.hostCType .mat4x4).size = 64 ∧ (SemType.deviceCType .mat4x4).size = 64 ∧
    (SemType.hostCType .int32).size = 4 ∧ (SemType.deviceCType .int32).size = 4 ∧
    (SemType.hostCType .float).size = 4 ∧ (SemType.deviceCType .float).size = 4 ∧
    VertexIn.hostOffsets = VertexIn.deviceOffsets ∧
    structSize VertexIn.hostTypes = structSize VertexIn.deviceTypes ∧
    VertexUniforms.hostOffsets = VertexUniforms.deviceOffsets ∧
    structSize VertexUniforms.hostTypes = structSize VertexUniforms.deviceTypes ∧
    FragmentUniforms.hostOffsets = FragmentUniforms.deviceOffsets ∧
    structSize FragmentUniforms.hostTypes = structSize FragmentUniforms.deviceTypes := by
  decide

/-- Claim C3: the FragmentUniforms struct (spec name FrameUniforms) has
exactly the fields colors (array of 10 three-component vectors),
colorCount (integer), time (float), lightPosition (3-vector),
colorCycleDuration (float), glowIntensity (float), in this order, and
the order is realized by strictly increasing field offsets. -/
theorem fragmentUniforms_fields_match_spec :
    FragmentUniforms.srcFields = FrameUniforms.specFields ∧
    FragmentUniforms.colorsCapacity = 10 ∧
    strictlyIncreasing FragmentUniforms.hostOffsets = true := by decide

set_option maxHeartbeats 1600000 in
/-- Claim C4: for each of the three shared structs, a host-side write into
a shared buffer followed by a device-side read yields a value whose every
field equals the original. -/
theorem sharedStructs_encode_decode_roundtrip :
    (∀ v : VertexIn, VertexIn.decode v.encode = v) ∧
    (∀ u : VertexUniforms, VertexUniforms.decode u.encode = u) ∧
    (∀ f : FragmentUniforms, FragmentUniforms.decode f.encode = f) := by
  refine ⟨fun v => rfl, fun u => rfl, fun f => ?_⟩
  obtain ⟨cs, cc, t, lp, cd, gi⟩ := f
  have hcs : (FragmentUniforms.decode
      (FragmentUniforms.encode ⟨cs, cc, t, lp, cd, gi⟩)).colors = cs := by
    funext i
    match i with
    | ⟨0, _⟩ => exact rfl
    | ⟨1, _⟩ => exact rfl
    | ⟨2, _⟩ => exact rfl
    | ⟨3, _⟩ => exact rfl
    | ⟨4, _⟩ => exact rfl
    | ⟨5, _⟩ => exact rfl
    | ⟨6, _⟩ => exact rfl
    | ⟨7, _⟩ => exact rfl
    | ⟨8, _⟩ => exact rfl
    | ⟨9, _⟩ => exact rfl
    | ⟨n + 10, h⟩ => exact absurd h (by omega)
  calc FragmentUniforms.decode (FragmentUniforms.encode ⟨cs, cc, t, lp, cd, gi⟩)
      = ⟨(FragmentUniforms.decode
          (FragmentUniforms.encode ⟨cs, cc, t, lp, cd, gi⟩)).colors,
         cc, t, lp, cd, gi⟩ := rfl
    _ = ⟨cs, cc, t, lp, cd, gi⟩ := by rw [hcs]

/-- Claim C5: the VertexUniforms struct (spec name DrawUniforms) has
exactly the fields modelMatrix (4x4 matrix), viewProjectionMatrix (4x4
matrix), cameraPosition (3-vector), spherePosition (2-vector),
sphereScale (float), in this order, realized by strictly increasing
field offsets. -/
theorem vertexUniforms_fields_match_spec :
    VertexUniforms.srcFields = DrawUniforms.specFields ∧
    strictlyIncreasing VertexUniforms.hostOffsets = true := by decide

/-- Claim C6: the VertexIn struct (spec name VertexAttributes) has exactly
the two fields position and normal, both 3-component vectors, in this
order, realized by strictly increasing field offsets. -/
theorem vertexIn_fields_match_spec :
    VertexIn.srcFields = VertexAttributes.specFields ∧
    strictlyIncreasing VertexIn.hostOffsets = true := by decide

/-- Claim C7: the VertexOut struct (spec name InterpolatedVertex) is
declared exactly when the device compilation flag is set, a compile-time
condition, and consists of a 4-component clip position carrying the
rasterization-position designation (the one field the spec renames, so
it is compared by type and designation) followed by exactly the three
3-component vector fields worldPosition, worldNormal, viewDirection,
whose names, types and order are compared verbatim. -/
theorem vertexOut_device_gated_matches_spec :
    (vertexOutDecl ∈ shaderTypesDecls true) ∧
    (vertexOutDecl ∉ shaderTypesDecls false) ∧
    (∀ m : Bool, vertexOutDecl ∈ shaderTypesDecls m ↔ m = true) ∧
    VertexOut.srcFields.map (fun f => (f.type, f.rasterPos)) =
      InterpolatedVertex.specFields.map (fun f => (f.type, f.rasterPos)) ∧
    VertexOut.srcFields.tail = InterpolatedVertex.specFields.tail := by decide

/-- Claim C8: colorCount 0 and colorCount 10 are both representable, and
each reads back exactly after a host write and device read. -/
theorem colorCount_boundary_values_roundtrip :
    Word32.toInt32 (fragWith 0).colorCount = 0 ∧
    Word32.toInt32 (FragmentUniforms.decode (fragWith 0).encode).colorCount = 0 ∧
    Word32.toInt32 (fragWith 10).colorCount = 10 ∧
    Word32.toInt32 (FragmentUniforms.decode (fragWith 10).encode).colorCount = 10 := by
  decide

/-- Claim C9: colorCount is a signed 32-bit int, so the type does not
enforce the invariant: there are representable FragmentUniforms values
with colorCount -1 and with colorCount 11, and neither is valid. -/
theorem colorCount_type_does_not_enforce_invariant :
    Word32.toInt32 (fragWith wordNegOne).colorCount = -1 ∧
    ¬ (fragWith wordNegOne).Valid ∧
    Word32.toInt32 (fragWith 11).colorCount = 11 ∧
    ¬ (fragWith 11).Valid := by
  refine ⟨by decide, fun h => absurd h.1 (by decide),
          by decide, fun h => absurd h.2 (by decide)⟩

set_option maxHeartbeats 800000 in
/-- Claim C10: for every FragmentUniforms value and every index i < 10,
the slot of colors at index i lies inside the 208-byte struct storage
(bytes 16i to 16i+12), and reading the three words starting at word
index 4i (byte offset 16i) of the written buffer yields the stored
element, for every value of colorCount. -/
theorem colors_index_within_storage_regardless_of_colorCount :
    ∀ (u : FragmentUniforms) (i : Fin 10),
      4 * u.encode.length = FragmentUniforms.sizeBytes ∧
      16 * i.val + 12 ≤ FragmentUniforms.sizeBytes ∧
      decodeF3 u.encode (4 * i.val) = u.colors i := by
  intro u i
  obtain ⟨cs, cc, t, lp, cd, gi⟩ := u
  refine ⟨?_, ?_, ?_⟩
  · exact Eq.trans
      (rfl : 4 * (FragmentUniforms.encode ⟨cs, cc, t, lp, cd, gi⟩).length = 208)
      (rfl : (208 : Nat) = FragmentUniforms.sizeBytes)
  · have hsz : FragmentUniforms.sizeBytes = 208 := rfl
    have hlt := i.isLt
    omega
  · match i with
    | ⟨0, _⟩ => exact rfl
    | ⟨1, _⟩ => exact rfl
    | ⟨2, _⟩ => exact rfl
    | ⟨3, _⟩ => exact rfl
    | ⟨4, _⟩ => exact rfl
    | ⟨5, _⟩ => exact rfl
    | ⟨6, _⟩ => exact rfl
    | ⟨7, _⟩ => exact rfl
    | ⟨8, _⟩ => exact rfl
    | ⟨9, _⟩ => exact rfl
    | ⟨n + 10, h⟩ => exact absurd h (by omega)
